import Mathlib

/-!
Verification of the Q0Measurement measurement-session engine
(src/container.py) via a shallow embedding.

Numeric buffers are modelled over the rationals.  The gradient buffer
keeps the missing-value sentinel (Python None, appended by
parseDataFromCSV on a parse failure) as `Option`, since the segmentation
code explicitly catches the resulting TypeError; the other buffers are
modelled as already-parsed numbers, which is the regime every claim
exercises.
-/

namespace Q0Meas

/-- Modelled from the spec: the numeric thresholds (MIN_DS_LL,
VALVE_POSITION_TOLERANCE, HEATER_TOLERANCE, GRAD_TOLERANCE,
MIN_RUN_DURATION) are imported by container.py from utils.py, which is
not part of the sources; the spec describes them only as fixed
tolerances, so they are carried as parameters. -/
structure Tolerances where
  MIN_DS_LL : ℚ
  VALVE_POSITION_TOLERANCE : ℚ
  HEATER_TOLERANCE : ℚ
  GRAD_TOLERANCE : ℚ
  MIN_RUN_DURATION : ℚ
  deriving DecidableEq

/-- The per-session aligned buffers and reference values of
DataSession.__init__ (container.py lines 379-422) that the segmentation,
trimming and heat-load code reads.  heatAdjustment is the mutable field
initialised to 0 and only ever set for calibration sessions. -/
structure DataSession where
  refValvePos : ℚ
  refHeatLoad : ℚ
  heatAdjustment : ℚ
  unixTimeBuff : List ℚ
  dsLevelBuff : List ℚ
  valvePosBuff : List ℚ
  elecHeatDesBuff : List ℚ
  elecHeatActBuff : List ℚ
  deriving DecidableEq

/-- Q0DataSession.__init__ (container.py lines 829-845): the cavity
session adds a gradient buffer (entries may be the None sentinel), a
pressure buffer, the reference gradient and the calibration session it
depends on, of which the derived-quantity code only reads calibSlope. -/
structure Q0DataSession where
  base : DataSession
  gradBuff : List (Option ℚ)
  dsPressBuff : List (Option ℚ)
  refGradVal : ℚ
  calibSlope : ℚ
  deriving DecidableEq

/-- A data run as created by segmentation: the start and end indices
into the session's buffers (DataRun.__init__, container.py 1004-1018).
Both indices are inclusive; Python would store end index -1 for a break
at index 0, which is unreachable once MIN_RUN_DURATION is positive. -/
structure Run where
  startIdx : ℕ
  endIdx : ℕ
  deriving DecidableEq

instance : Inhabited Run := ⟨⟨0, 0⟩⟩

/-- DataSession.isEndOfCalibRun (container.py lines 779-799).
elecHeatLoad is the heater-setpoint-sum buffer value at idx, passed in
by populateRuns.  Note the heater readback comparison is non-strict. -/
def isEndOfCalibRun (tol : Tolerances) (s : DataSession) (idx : ℕ)
    (elecHeatLoad : ℚ) : Bool :=
  let prevElecHeatLoad :=
    if 0 < idx then s.elecHeatDesBuff.getD (idx - 1) 0 else elecHeatLoad
  decide (elecHeatLoad ≠ prevElecHeatLoad) ||
  decide (s.dsLevelBuff.getD idx 0 < tol.MIN_DS_LL) ||
  decide (|s.valvePosBuff.getD idx 0 - s.refValvePos| >
    tol.VALVE_POSITION_TOLERANCE) ||
  decide (idx = s.elecHeatDesBuff.length - 1) ||
  decide (|elecHeatLoad - s.elecHeatActBuff.getD idx 0| ≥
    tol.HEATER_TOLERANCE)

/-- The gradient-change test of Q0DataSession.populateRuns (container.py
lines 902-906): at idx = 0 the conditional expression short-circuits to
False, and a None sentinel at idx or idx-1 raises a TypeError that the
except clause turns into False. -/
def gradChangedQ0 (tol : Tolerances) (q : Q0DataSession) (idx : ℕ) : Bool :=
  if idx ≠ 0 then
    match q.gradBuff.getD idx none, q.gradBuff.getD (idx - 1) none with
    | some g, some g' => decide (|g - g'| > tol.GRAD_TOLERANCE)
    | _, _ => false
  else false

/-- isEndOfQ0Run of Q0DataSession.populateRuns (container.py lines
908-909): the calibration break condition extended with the gradient
change test. -/
def isEndOfQ0Run (tol : Tolerances) (q : Q0DataSession) (idx : ℕ) : Bool :=
  isEndOfCalibRun tol q.base idx (q.base.elecHeatDesBuff.getD idx 0) ||
  gradChangedQ0 tol q idx

/-- DataSession.checkAndFlushRun (container.py lines 801-811), with the
session's run list threaded explicitly (the Python method appends to
self.dataRuns via addRun and returns the new pending start index). -/
def checkAndFlushRun (tol : Tolerances) (s : DataSession) (isEndOfRun : Bool)
    (idx : ℕ) (st : List Run × ℕ) : List Run × ℕ :=
  if isEndOfRun then
    (if s.unixTimeBuff.getD idx 0 - s.unixTimeBuff.getD st.2 0 ≥
        tol.MIN_RUN_DURATION
     then st.1 ++ [⟨st.2, idx - 1⟩] else st.1, idx)
  else st

/-- DataSession.populateRuns (container.py lines 815-820). -/
def populateRuns (tol : Tolerances) (s : DataSession) : List Run :=
  ((List.range s.elecHeatDesBuff.length).foldl
    (fun st idx =>
      checkAndFlushRun tol s
        (isEndOfCalibRun tol s idx (s.elecHeatDesBuff.getD idx 0)) idx st)
    ([], 0)).1

/-- Q0DataSession.populateRuns (container.py lines 896-911). -/
def populateRunsQ0 (tol : Tolerances) (q : Q0DataSession) : List Run :=
  ((List.range q.base.elecHeatDesBuff.length).foldl
    (fun st idx => checkAndFlushRun tol q.base (isEndOfQ0Run tol q idx) idx st)
    ([], 0)).1

/-- Python int() applied to a float truncates toward zero; container.py
line 625 computes cutoff = int(totalHeatDelta * 25). -/
def pyInt (x : ℚ) : ℤ :=
  if 0 ≤ x then Int.floor x else Int.ceil x

/-- Q0DataSession.approxHeatFromGrad (container.py lines 918-923):
gradients at most 0 contribute no approximate heat. -/
def approxHeatFromGrad (grad : ℚ) : ℚ :=
  if grad > 0 then (grad / 16) ^ 2 * (48 / 5) else 0

/-- approxHeatFromGrad applied to a gradient-buffer entry.  Under the
Python 2 interpreter the code runs on, None > 0 is False, so a None
sentinel takes the no-heat branch. -/
def approxHeatFromGradOpt (grad : Option ℚ) : ℚ :=
  match grad with
  | some g => approxHeatFromGrad g
  | none => 0

/-- DataSession.getTotalHeatDelta (container.py lines 591-603).  The
first run (currIdx = 0) returns the signed difference from the
reference heat load; later runs take the absolute difference of the
setpoint values at this run's start index and the previous run's
(already trimmed, the list is mutated in place) start index. -/
def getTotalHeatDelta (s : DataSession) (runs : List Run)
    (startIdx currIdx : ℕ) : ℚ :=
  if currIdx = 0 then s.elecHeatDesBuff.getD startIdx 0 - s.refHeatLoad
  else
    let prevStartIdx := (runs.getD (currIdx - 1) default).startIdx
    |s.elecHeatDesBuff.getD startIdx 0 - s.elecHeatDesBuff.getD prevStartIdx 0|

/-- Q0DataSession.getTotalHeatDelta (container.py lines 957-977): the
calibration formula plus the gradient-approximated heat terms; again no
absolute value for the first run. -/
def getTotalHeatDeltaQ0 (q : Q0DataSession) (runs : List Run)
    (startIdx currIdx : ℕ) : ℚ :=
  if currIdx = 0 then
    (q.base.elecHeatDesBuff.getD startIdx 0 - q.base.refHeatLoad) +
      approxHeatFromGradOpt (q.gradBuff.getD startIdx none)
  else
    let prevStartIdx := (runs.getD (currIdx - 1) default).startIdx
    let elecHeatDelta := q.base.elecHeatDesBuff.getD startIdx 0 -
      q.base.elecHeatDesBuff.getD prevStartIdx 0
    let gradHeatDelta := approxHeatFromGradOpt (q.gradBuff.getD startIdx none)
      - approxHeatFromGradOpt (q.gradBuff.getD prevStartIdx none)
    |elecHeatDelta + gradHeatDelta|

/-- The while loop of DataSession.adjustForSettle (container.py lines
631-633): starting from the run's start index with duration 0, advance
one sample at a time, re-reading unixTimeBuff, until the elapsed time
reaches the cutoff.  Reading past the end of the buffer is a Python
IndexError, modelled as none.  The fuel argument only bounds the
recursion; it is instantiated with the buffer length, which the loop
can never exhaust since the index grows with every iteration. -/
def settleAdvance (times : List ℚ) (startTime : ℚ) (cutoff : ℤ)
    (fuel idx : ℕ) (duration : ℚ) : Option ℕ :=
  if duration < (cutoff : ℚ) then
    if fuel = 0 then none
    else
      if idx + 1 < times.length then
        settleAdvance times startTime cutoff (fuel - 1) (idx + 1)
          (times.getD (idx + 1) 0 - startTime)
      else none
  else some idx
termination_by fuel
decreasing_by omega

/-- The loop body of DataSession.adjustForSettle (container.py lines
611-638), iterating i over the run list and mutating each run's start
index in place.  heatDelta abstracts the virtual getTotalHeatDelta
dispatch (DataSession vs Q0DataSession).  The fuel argument is
instantiated with the run-list length so that the loop visits exactly
the indices the Python for loop does. -/
def adjustLoop (times : List ℚ) (heatDelta : List Run → ℕ → ℕ → ℚ)
    (fuel i : ℕ) (rs : List Run) : Option (List Run) :=
  if fuel = 0 then some rs
  else
    if i < rs.length then
      match settleAdvance times (times.getD (rs.getD i default).startIdx 0)
          (pyInt (heatDelta rs (rs.getD i default).startIdx i * 25))
          times.length (rs.getD i default).startIdx 0 with
      | none => none
      | some idx => adjustLoop times heatDelta (fuel - 1) (i + 1)
          (rs.set i ⟨idx, (rs.getD i default).endIdx⟩)
    else some rs
termination_by fuel
decreasing_by omega

/-- DataSession.adjustForSettle for a calibration session. -/
def adjustForSettle (s : DataSession) (rs : List Run) : Option (List Run) :=
  adjustLoop s.unixTimeBuff (getTotalHeatDelta s) rs.length 0 rs

/-- DataSession.adjustForSettle as inherited by Q0DataSession, which
overrides only getTotalHeatDelta. -/
def adjustForSettleQ0 (q : Q0DataSession) (rs : List Run) :
    Option (List Run) :=
  adjustLoop q.base.unixTimeBuff (getTotalHeatDeltaQ0 q) rs.length 0 rs

/-- A run after the regression engine has fitted its slope (linregress
is an external collaborator; the fitted slope is carried as data). -/
structure FittedRun where
  startIdx : ℕ
  endIdx : ℕ
  slope : ℚ
  deriving DecidableEq

/-- DataRun.elecHeatLoadDes (container.py lines 1036-1038). -/
def elecHeatLoadDes (q : Q0DataSession) (r : FittedRun) : ℚ :=
  q.base.elecHeatDesBuff.getD r.endIdx 0 - q.base.refHeatLoad

/-- DataRun.elecHeatLoad (container.py lines 1030-1033).  For a Q0
session heatAdjustment is never reassigned after its initialisation
to 0. -/
def elecHeatLoadRun (q : Q0DataSession) (r : FittedRun) : ℚ :=
  (q.base.elecHeatActBuff.getD r.endIdx 0 - q.base.elecHeatActBuff.getD 0 0)
    + q.base.heatAdjustment

/-- Q0DataRun.heatAdjustment (container.py lines 1088-1094): defined
only for heater runs. -/
def heatAdjustmentRun (q : Q0DataSession) (r : FittedRun) : Option ℚ :=
  if elecHeatLoadDes q r ≠ 0 then
    some (elecHeatLoadRun q r - r.slope / q.calibSlope)
  else none

/-- Q0DataSession.aveHeatAdjustment (container.py lines 933-942).  The
Python code tests `if runAdjustment:`, so both a None and an exactly
zero adjustment are dropped from the mean. -/
def aveHeatAdjustment (q : Q0DataSession) (runs : List FittedRun) : ℚ :=
  let adjustments := runs.filterMap (fun r =>
    match heatAdjustmentRun q r with
    | some a => if a ≠ 0 then some a else none
    | none => none)
  if adjustments = [] then 0 else adjustments.sum / adjustments.length

/-- Q0DataRun.totalHeatLoad (container.py lines 1070-1076). -/
def totalHeatLoad (q : Q0DataSession) (runs : List FittedRun)
    (r : FittedRun) : ℚ :=
  if elecHeatLoadDes q r = 0 then
    r.slope / q.calibSlope + aveHeatAdjustment q runs
  else elecHeatLoadRun q r

/-- Q0DataRun.rfHeatLoad (container.py lines 1079-1085). -/
def rfHeatLoad (q : Q0DataSession) (runs : List FittedRun)
    (r : FittedRun) : ℚ :=
  if elecHeatLoadDes q r ≠ 0 then 0
  else totalHeatLoad q runs r - elecHeatLoadRun q r

/-- The uncorrected Q0 expression of Q0DataRun.calcQ0 (container.py
line 1168); 939.3 = 9393/10. -/
def uncorrectedQ0 (grad rfHeat : ℚ) : ℚ :=
  (grad * 1000000) ^ 2 / (9393 / 10 * rfHeat)

/-- Q0DataRun.calcQ0 (container.py lines 1164-1189).  Divisions whose
denominator is zero raise ZeroDivisionError in Python and yield none
here.  expFn stands for numpy's transcendental exp, which a rational
embedding takes as a parameter; every claim exercises only the
pressure-less branch.  `if avgPressure:` is a truthiness test, so a
missing or exactly-zero pressure takes the uncorrected branch. -/
def calcQ0 (expFn : ℚ → ℚ) (grad rfHeat : ℚ) (avgPressure : Option ℚ) :
    Option ℚ :=
  if rfHeat = 0 then none
  else
    let uncorrected := uncorrectedQ0 grad rfHeat
    match avgPressure with
    | some p =>
      if p ≠ 0 then
        let tempFromPress := p * (1 / 80) + 341 / 200
        let c1 : ℚ := 271
        let c2 : ℚ := 726 / 10000000
        let c3 : ℚ := 214 / 100000000
        let c4 : ℚ := grad - 7 / 10
        let c5 : ℚ := 43 / 1000000000
        let c6 : ℚ := -851 / 50
        let c7 : ℚ := c2 - c3 * c4 + c5 * c4 ^ 2
        if uncorrected = 0 then none
        else if tempFromPress = 0 then none
        else
          let denom := c7 / 2 * expFn (c6 / 2) + c1 / uncorrected
            - c7 / tempFromPress * expFn (c6 / tempFromPress)
          if denom = 0 then none else some (c1 / denom)
      else some uncorrected
    | none => some uncorrected

/-- The per-sample gradient used inside Q0DataRun.q0 (container.py
lines 1110-1113): `archiveGrad if archiveGrad else refGradVal`, i.e. a
missing or zero reading is replaced by the session's reference
gradient. -/
def substGrad (q : Q0DataSession) (idx : ℕ) : ℚ :=
  match q.gradBuff.getD idx none with
  | some g => if g ≠ 0 then g else q.refGradVal
  | none => q.refGradVal

/-- numInvalidGrads of Q0DataRun.q0 (container.py line 1107):
`self.dataSession.gradBuff.count(0)` counts the zero entries of the
session's whole gradient buffer (a None sentinel is not equal to 0 and
is not counted). -/
def numInvalidGrads (q : Q0DataSession) : ℕ :=
  (q.gradBuff.filter (fun x => decide (x = some 0))).length

/-- The number of per-sample evaluations inside the run that substGrad
replaces with the reference gradient: the zero-or-missing entries over
the half-open sample range the q0 loop iterates
(`range(self.startIdx, self.endIdx)`). -/
def substitutedCount (q : Q0DataSession) (r : FittedRun) : ℕ :=
  ((List.range' r.startIdx (r.endIdx - r.startIdx)).filter (fun idx =>
    match q.gradBuff.getD idx none with
    | some g => decide (g = 0)
    | none => true)).length

/-- numpy.mean of a list; the empty mean is NaN (numpy warns and
returns nan), modelled as none. -/
def listMean (xs : List ℚ) : Option ℚ :=
  if xs.length = 0 then none else some (xs.sum / xs.length)

/-- Q0DataRun.q0 (container.py lines 1100-1127).  Except.ok none is the
deliberate `return None` for heater runs; Except.error () is an
uncaught exception escaping the property (a per-sample
ZeroDivisionError inside calcQ0, or the degenerate empty mean). -/
def q0RunResult (expFn : ℚ → ℚ) (q : Q0DataSession)
    (runs : List FittedRun) (r : FittedRun) : Except Unit (Option ℚ) :=
  if elecHeatLoadDes q r ≠ 0 then Except.ok none
  else
    match (List.range' r.startIdx (r.endIdx - r.startIdx)).mapM (fun idx =>
        calcQ0 expFn (substGrad q idx) (rfHeatLoad q runs r)
          (q.dsPressBuff.getD idx none)) with
    | none => Except.error ()
    | some vals =>
      match listMean vals with
      | none => Except.error ()
      | some m => Except.ok (some m)

/-- The session a Container's genDataSession constructs, carrying its
defining parameters (for the calibration case that the session-cache
claim is settled on). -/
structure CalibSessionModel where
  startTime : ℕ
  endTime : ℕ
  timeInt : ℕ
  refValvePos : ℚ
  refHeatLoad : ℚ
  deriving DecidableEq

/-- The cache-owning state of a Container (container.py line 53 and
addDataSession). -/
structure ContainerState where
  slacNum : ℕ
  jlabNum : ℕ
  dataSessions : List (ℕ × CalibSessionModel)
  deriving DecidableEq

/-- DataSession.hash (container.py lines 473-477): the XOR fold of the
identity fields' Python hashes.  The fields are modelled as naturals
whose Python hash is the number itself (hash(n) = n for small ints). -/
def sessionHash (startTime endTime timeInt slacNum jlabNum : ℕ) : ℕ :=
  startTime ^^^ endTime ^^^ timeInt ^^^ slacNum ^^^ jlabNum

/-- Container.addDataSession (container.py lines 201-225) for a
Cryomodule: look the XOR hash up in the cache, construct and insert
only on a miss, and return the cached entry. -/
def addDataSession (c : ContainerState) (startTime endTime timeInt : ℕ)
    (refValvePos refHeatLoad : ℚ) : CalibSessionModel × ContainerState :=
  let h := sessionHash startTime endTime timeInt c.slacNum c.jlabNum
  match c.dataSessions.lookup h with
  | some s => (s, c)
  | none =>
    let s : CalibSessionModel :=
      ⟨startTime, endTime, timeInt, refValvePos, refHeatLoad⟩
    (s, { c with dataSessions := c.dataSessions ++ [(h, s)] })

/-- The break condition exactly as the claim states it for a cavity
(Q0) session: heater setpoint change, gradient change beyond tolerance
(both only for i > 0), liquid level below the floor, valve position
beyond tolerance, heater readback deviating from the setpoint by
STRICTLY more than the heater tolerance, or i being the last index. -/
def specBreakQ0 (tol : Tolerances) (q : Q0DataSession) (idx : ℕ) : Prop :=
  (0 < idx ∧ q.base.elecHeatDesBuff.getD idx 0 ≠
    q.base.elecHeatDesBuff.getD (idx - 1) 0) ∨
  (0 < idx ∧ ∃ g g', q.gradBuff.getD idx none = some g ∧
    q.gradBuff.getD (idx - 1) none = some g' ∧ |g - g'| > tol.GRAD_TOLERANCE) ∨
  q.base.dsLevelBuff.getD idx 0 < tol.MIN_DS_LL ∨
  |q.base.valvePosBuff.getD idx 0 - q.base.refValvePos| >
    tol.VALVE_POSITION_TOLERANCE ∨
  |q.base.elecHeatDesBuff.getD idx 0 - q.base.elecHeatActBuff.getD idx 0| >
    tol.HEATER_TOLERANCE ∨
  idx = q.base.elecHeatDesBuff.length - 1

/-- The amended break condition: identical to specBreakQ0 except that
the heater readback comparison is non-strict (at least the heater
tolerance), matching the source's >= on line 790-791. -/
def specBreakQ0Amended (tol : Tolerances) (q : Q0DataSession) (idx : ℕ) :
    Prop :=
  (0 < idx ∧ q.base.elecHeatDesBuff.getD idx 0 ≠
    q.base.elecHeatDesBuff.getD (idx - 1) 0) ∨
  (0 < idx ∧ ∃ g g', q.gradBuff.getD idx none = some g ∧
    q.gradBuff.getD (idx - 1) none = some g' ∧ |g - g'| > tol.GRAD_TOLERANCE) ∨
  q.base.dsLevelBuff.getD idx 0 < tol.MIN_DS_LL ∨
  |q.base.valvePosBuff.getD idx 0 - q.base.refValvePos| >
    tol.VALVE_POSITION_TOLERANCE ∨
  |q.base.elecHeatDesBuff.getD idx 0 - q.base.elecHeatActBuff.getD idx 0| ≥
    tol.HEATER_TOLERANCE ∨
  idx = q.base.elecHeatDesBuff.length - 1

/-- A session and tolerance set on which the claimed strict heater
comparison disagrees with the code: at index 1 the readback deviates
from the setpoint by exactly the heater tolerance. -/
def c1Session : Q0DataSession :=
  { base :=
    { refValvePos := 10, refHeatLoad := 0, heatAdjustment := 0
      unixTimeBuff := [0, 1, 2], dsLevelBuff := [90, 90, 90]
      valvePosBuff := [10, 10, 10], elecHeatDesBuff := [5, 5, 5]
      elecHeatActBuff := [5, 4, 5] }
    gradBuff := [some 1, some 1, some 1]
    dsPressBuff := [none, none, none]
    refGradVal := 16, calibSlope := 1 }

/-- The tolerances used by the concrete counterexamples. -/
def cTol : Tolerances :=
  { MIN_DS_LL := 0, VALVE_POSITION_TOLERANCE := 2, HEATER_TOLERANCE := 1
    GRAD_TOLERANCE := 1, MIN_RUN_DURATION := 5 }

/-- Rewriting lemma used to evaluate the source's abs() on concrete
rationals. -/
theorem absIte (x : ℚ) : |x| = if x < 0 then -x else x := by
  rcases lt_or_le x 0 with h | h
  · rw [abs_of_neg h, if_pos h]
  · rw [abs_of_nonneg h, if_neg (not_lt.mpr h)]

/-- C1 counterexample: at index 1 of c1Session the code breaks (the
heater readback deviates from the setpoint by exactly the heater
tolerance, and the comparison on container.py line 790-791 is >=), but
the claimed break condition, whose heater clause is strict, is false:
the claimed iff fails. -/
theorem c1_counterexample :
    isEndOfQ0Run cTol c1Session 1 = true ∧ ¬ specBreakQ0 cTol c1Session 1 := by
  constructor
  · norm_num [isEndOfQ0Run, isEndOfCalibRun, gradChangedQ0, c1Session, cTol,
      absIte]
  · intro h
    rcases h with ⟨_, hne⟩ | ⟨_, g, g', hg, hg', hgt⟩ | h | h | h | h
    · norm_num [c1Session] at hne
    · rw [show (c1Session.gradBuff.getD 1 none) = some 1 from rfl] at hg
      rw [show (c1Session.gradBuff.getD 0 none) = some 1 from rfl] at hg'
      cases hg
      cases hg'
      norm_num [cTol] at hgt
    · norm_num [c1Session, cTol] at h
    · norm_num [c1Session, cTol, absIte] at h
    · norm_num [c1Session, cTol, absIte] at h
    · norm_num [c1Session] at h

/-- C1 amended: a break occurs at index i in Q0 segmentation exactly
under the claimed disjunction with the heater readback comparison made
non-strict (deviation at least the heater tolerance); the i = 0 heater
and gradient comparisons never trigger. -/
theorem c1_amended (tol : Tolerances) (q : Q0DataSession) (idx : ℕ) :
    isEndOfQ0Run tol q idx = true ↔ specBreakQ0Amended tol q idx := by
  unfold isEndOfQ0Run isEndOfCalibRun gradChangedQ0 specBreakQ0Amended
  rcases Nat.eq_zero_or_pos idx with h0 | hpos
  · subst h0
    simp
    tauto
  · have hne : idx ≠ 0 := Nat.pos_iff_ne_zero.mp hpos
    simp only [hpos, if_pos, if_true, hne, ite_true, if_neg, Bool.or_eq_true,
      decide_eq_true_eq, ne_eq]
    cases hg : q.gradBuff.getD idx none with
    | none =>
      cases hg' : q.gradBuff.getD (idx - 1) none with
      | none => simp [hg, hg', hpos]; tauto
      | some b => simp [hg, hg', hpos]; tauto
    | some a =>
      cases hg' : q.gradBuff.getD (idx - 1) none with
      | none => simp [hg, hg', hpos]; tauto
      | some b => simp [hg, hg', hpos]; tauto

/-- A minimal session used by the C2 witness. -/
def c2Session : DataSession :=
  { refValvePos := 0, refHeatLoad := 0, heatAdjustment := 0
    unixTimeBuff := [0, 10], dsLevelBuff := [90, 90]
    valvePosBuff := [0, 0], elecHeatDesBuff := [5, 5]
    elecHeatActBuff := [5, 5] }

/-- C2: on a break at index idx, a run spanning exactly
[runStartIdx, idx - 1] is appended precisely when the elapsed time
between the pending start and idx reaches the minimum duration, nothing
is appended otherwise, and in both cases the pending start becomes idx.
(The positivity and ordering hypotheses scope the statement to the
reachable segmentation states, where a break at index 0 can never emit
a run and the natural-number idx - 1 agrees with Python's.) -/
theorem c2_flush (tol : Tolerances) (s : DataSession) (idx runStartIdx : ℕ)
    (runs : List Run) (hmin : 0 < tol.MIN_RUN_DURATION)
    (hle : runStartIdx ≤ idx) :
    (s.unixTimeBuff.getD idx 0 - s.unixTimeBuff.getD runStartIdx 0 ≥
        tol.MIN_RUN_DURATION →
      checkAndFlushRun tol s true idx (runs, runStartIdx) =
        (runs ++ [⟨runStartIdx, idx - 1⟩], idx)) ∧
    (¬ s.unixTimeBuff.getD idx 0 - s.unixTimeBuff.getD runStartIdx 0 ≥
        tol.MIN_RUN_DURATION →
      checkAndFlushRun tol s true idx (runs, runStartIdx) = (runs, idx)) := by
  constructor <;> intro h <;> unfold checkAndFlushRun
  · rw [if_pos rfl, if_pos h]
  · rw [if_pos rfl, if_neg h]

/-- C2 witness: a concrete break at index 1 with elapsed time 10 and
threshold 5 emits the run [0, 0] and moves the pending start to 1. -/
theorem c2_flush_witness :
    checkAndFlushRun cTol c2Session true 1 ([], 0) = ([⟨0, 0⟩], 1) := by
  have h := c2_flush cTol c2Session 1 0 [] (by norm_num [cTol]) (by norm_num)
  exact h.1 (by norm_num [c2Session, cTol])

/-- A Q0 session whose gradient buffer holds a None sentinel at
index 1, used by the C10 witness. -/
def c10Session : Q0DataSession :=
  { base :=
    { refValvePos := 10, refHeatLoad := 0, heatAdjustment := 0
      unixTimeBuff := [0, 1, 2], dsLevelBuff := [90, 90, 90]
      valvePosBuff := [10, 10, 10], elecHeatDesBuff := [5, 5, 5]
      elecHeatActBuff := [5, 5, 5] }
    gradBuff := [some 1, none, some 1]
    dsPressBuff := [none, none, none]
    refGradVal := 16, calibSlope := 1 }

/-- C10: a missing-value sentinel in the gradient buffer at index idx
or idx - 1 never triggers the gradient-change break condition (the
TypeError is caught and the gradient treated as unchanged), so the Q0
break condition degenerates to the calibration one and segmentation
does not crash. -/
theorem c10_gradNone (tol : Tolerances) (q : Q0DataSession) (idx : ℕ)
    (hlen : idx < q.base.elecHeatDesBuff.length)
    (hnone : q.gradBuff.getD idx none = none ∨
      (0 < idx ∧ q.gradBuff.getD (idx - 1) none = none)) :
    gradChangedQ0 tol q idx = false ∧
    isEndOfQ0Run tol q idx =
      isEndOfCalibRun tol q.base idx (q.base.elecHeatDesBuff.getD idx 0) := by
  have hg : gradChangedQ0 tol q idx = false := by
    unfold gradChangedQ0
    rcases hnone with h | ⟨hpos, h⟩
    · by_cases h0 : idx = 0
      · simp [h0]
      · rw [if_pos h0, h]
    · have h0 : idx ≠ 0 := Nat.pos_iff_ne_zero.mp hpos
      rw [if_pos h0, h]
      cases hx : q.gradBuff.getD idx none <;> rfl
  exact ⟨hg, by simp [isEndOfQ0Run, hg]⟩

/-- C10 witness: the sentinel at index 1 of c10Session leaves the break
condition equal to the calibration one. -/
theorem c10_gradNone_witness :
    c10Session.gradBuff.getD 1 none = none ∧
    (gradChangedQ0 cTol c10Session 1 = false ∧
     isEndOfQ0Run cTol c10Session 1 =
       isEndOfCalibRun cTol c10Session.base 1
         (c10Session.base.elecHeatDesBuff.getD 1 0)) :=
  ⟨rfl, c10_gradNone cTol c10Session 1 (by norm_num [c10Session]) (Or.inl rfl)⟩

/-- A steady calibration session over timestamps 0, 10, 20, 30: the
only break is the final index, where the elapsed time to the break
index (30) passes the threshold 25 but the emitted run [0, 2] itself
spans only 20 seconds. -/
def c8Session : DataSession :=
  { refValvePos := 0, refHeatLoad := 5, heatAdjustment := 0
    unixTimeBuff := [0, 10, 20, 30], dsLevelBuff := [90, 90, 90, 90]
    valvePosBuff := [0, 0, 0, 0], elecHeatDesBuff := [5, 5, 5, 5]
    elecHeatActBuff := [5, 5, 5, 5] }

/-- Tolerances with minimum run duration 25 for the C8 instances. -/
def c8Tol : Tolerances :=
  { MIN_DS_LL := 0, VALVE_POSITION_TOLERANCE := 2, HEATER_TOLERANCE := 1
    GRAD_TOLERANCE := 1, MIN_RUN_DURATION := 25 }

/-- Evaluation of segmentation on c8Session. -/
theorem c8_eval : populateRuns c8Tol c8Session = [⟨0, 2⟩] := by
  unfold populateRuns
  rw [show List.range c8Session.elecHeatDesBuff.length = [0, 1, 2, 3] from rfl]
  norm_num [checkAndFlushRun, isEndOfCalibRun, c8Session, c8Tol, absIte]

/-- C8 counterexample: segmentation of c8Session with threshold 25
emits the run [0, 2], whose elapsed wall time from its start sample to
its end sample is 20 < 25: the duration check (container.py lines
803-806) is made against the break index, one past the emitted run's
end. -/
theorem c8_counterexample :
    populateRuns c8Tol c8Session = [⟨0, 2⟩] ∧
    c8Session.unixTimeBuff.getD 2 0 - c8Session.unixTimeBuff.getD 0 0 <
      c8Tol.MIN_RUN_DURATION :=
  ⟨c8_eval, by norm_num [c8Session, c8Tol]⟩

/-- Invariant of the segmentation fold: every emitted run has elapsed
time at least the threshold when measured up to its break index, for
any break predicate, provided every processed index is positive. -/
theorem segFoldDuration (tol : Tolerances) (s : DataSession) (f : ℕ → Bool) :
    ∀ (idxs : List ℕ) (st : List Run × ℕ),
      (∀ r ∈ st.1, s.unixTimeBuff.getD (r.endIdx + 1) 0 -
        s.unixTimeBuff.getD r.startIdx 0 ≥ tol.MIN_RUN_DURATION) →
      (∀ i ∈ idxs, 1 ≤ i) →
      ∀ r ∈ (idxs.foldl (fun st idx => checkAndFlushRun tol s (f idx) idx st)
        st).1,
        s.unixTimeBuff.getD (r.endIdx + 1) 0 -
          s.unixTimeBuff.getD r.startIdx 0 ≥ tol.MIN_RUN_DURATION := by
  intro idxs
  induction idxs with
  | nil => intro st hst _ r hr; exact hst r hr
  | cons i rest ih =>
    intro st hst hidx r hr
    rw [List.foldl_cons] at hr
    refine ih _ ?_ (fun j hj => hidx j (List.mem_cons_of_mem _ hj)) r hr
    intro r' hr'
    unfold checkAndFlushRun at hr'
    by_cases hb : f i = true
    · rw [if_pos hb] at hr'
      by_cases hd : s.unixTimeBuff.getD i 0 - s.unixTimeBuff.getD st.2 0 ≥
        tol.MIN_RUN_DURATION
      · rw [if_pos hd] at hr'
        simp only [List.mem_append, List.mem_singleton] at hr'
        rcases hr' with hr' | hr'
        · exact hst r' hr'
        · subst hr'
          have h1 : 1 ≤ i := hidx i (List.mem_cons_self _ _)
          have h2 : i - 1 + 1 = i := Nat.succ_pred_eq_of_pos h1
          simpa [h2] using hd
      · rw [if_neg hd] at hr'
        exact hst r' hr'
    · rw [if_neg hb] at hr'
      exact hst r' hr'

/-- C8 amended: every run emitted by segmentation satisfies the
minimum-duration law measured to its break index (one past its end
index); the elapsed time between the run's own start and end samples
can be smaller, and settle trimming can shrink it further. -/
theorem c8_amended (tol : Tolerances) (s : DataSession)
    (hmin : 0 < tol.MIN_RUN_DURATION) (r : Run)
    (hr : r ∈ populateRuns tol s) :
    s.unixTimeBuff.getD (r.endIdx + 1) 0 -
      s.unixTimeBuff.getD r.startIdx 0 ≥ tol.MIN_RUN_DURATION := by
  unfold populateRuns at hr
  rcases hn : s.elecHeatDesBuff.length with _ | m
  · rw [hn] at hr
    simp at hr
  · rw [hn, List.range_succ_eq_map, List.foldl_cons] at hr
    have hstep : checkAndFlushRun tol s
        (isEndOfCalibRun tol s 0 (s.elecHeatDesBuff.getD 0 0)) 0 ([], 0) =
        ([], 0) := by
      unfold checkAndFlushRun
      by_cases hb : isEndOfCalibRun tol s 0 (s.elecHeatDesBuff.getD 0 0) = true
      · rw [if_pos hb, if_neg]
        rw [sub_self]
        exact not_le.mpr hmin
      · rw [if_neg hb]
    rw [hstep] at hr
    refine segFoldDuration tol s _ _ ([], 0) (by simp) ?_ r hr
    intro j hj
    rcases List.mem_map.mp hj with ⟨k, _, hk⟩
    omega

/-- C8 witness: the amended law holds at the concrete run [0, 2] of
c8Session: its break-index elapsed time is 30 ≥ 25. -/
theorem c8_amended_witness :
    (0 : ℚ) < c8Tol.MIN_RUN_DURATION ∧
    c8Session.unixTimeBuff.getD (2 + 1) 0 -
      c8Session.unixTimeBuff.getD 0 0 ≥ c8Tol.MIN_RUN_DURATION :=
  ⟨by norm_num [c8Tol],
   c8_amended c8Tol c8Session (by norm_num [c8Tol]) ⟨0, 2⟩
     (by rw [c8_eval]; simp)⟩

/-- The settle loop never moves an index backwards. -/
theorem settleAdvance_le (times : List ℚ) (st : ℚ) (cutoff : ℤ) :
    ∀ (fuel idx : ℕ) (dur : ℚ) (idx' : ℕ),
      settleAdvance times st cutoff fuel idx dur = some idx' → idx ≤ idx' := by
  intro fuel
  induction fuel with
  | zero =>
    intro idx dur idx' h
    unfold settleAdvance at h
    by_cases hd : dur < (cutoff : ℚ)
    · rw [if_pos hd, if_pos rfl] at h
      exact Option.noConfusion h
    · rw [if_neg hd] at h
      injection h with h
      omega
  | succ fuel ih =>
    intro idx dur idx' h
    unfold settleAdvance at h
    by_cases hd : dur < (cutoff : ℚ)
    · rw [if_pos hd, if_neg (by omega : ¬ fuel + 1 = 0)] at h
      by_cases hl : idx + 1 < times.length
      · rw [if_pos hl, Nat.add_sub_cancel] at h
        have := ih (idx + 1) _ idx' h
        omega
      · rw [if_neg hl] at h
        exact Option.noConfusion h
    · rw [if_neg hd] at h
      injection h with h
      omega

/-- Soundness of the settle loop: started at idx with its own elapsed
time, a successful result is the first index from idx on whose elapsed
time reaches the cutoff. -/
theorem settleAdvance_sound (times : List ℚ) (st : ℚ) (cutoff : ℤ) :
    ∀ (fuel idx idx' : ℕ),
      settleAdvance times st cutoff fuel idx (times.getD idx 0 - st) =
        some idx' →
      idx ≤ idx' ∧ ¬ times.getD idx' 0 - st < (cutoff : ℚ) ∧
        ∀ j, idx ≤ j → j < idx' → times.getD j 0 - st < (cutoff : ℚ) := by
  intro fuel
  induction fuel with
  | zero =>
    intro idx idx' h
    unfold settleAdvance at h
    by_cases hd : times.getD idx 0 - st < (cutoff : ℚ)
    · rw [if_pos hd, if_pos rfl] at h
      exact Option.noConfusion h
    · rw [if_neg hd] at h
      injection h with h
      subst h
      exact ⟨le_refl _, hd, fun j h1 h2 => absurd h1 (by omega)⟩
  | succ fuel ih =>
    intro idx idx' h
    unfold settleAdvance at h
    by_cases hd : times.getD idx 0 - st < (cutoff : ℚ)
    · rw [if_pos hd, if_neg (by omega : ¬ fuel + 1 = 0)] at h
      by_cases hl : idx + 1 < times.length
      · rw [if_pos hl, Nat.add_sub_cancel] at h
        obtain ⟨h1, h2, h3⟩ := ih (idx + 1) idx' h
        refine ⟨by omega, h2, fun j hj1 hj2 => ?_⟩
        rcases Nat.eq_or_lt_of_le hj1 with hj | hj
        · rw [hj] at hd
          exact hd
        · exact h3 j hj hj2
      · rw [if_neg hl] at h
        exact Option.noConfusion h
    · rw [if_neg hd] at h
      injection h with h
      subst h
      exact ⟨le_refl _, hd, fun j h1 h2 => absurd h1 (by omega)⟩

/-- The settle-adjust loop preserves the number of runs and each run's
end index, and never decreases a start index. -/
theorem adjustLoop_mono (times : List ℚ) (hd : List Run → ℕ → ℕ → ℚ) :
    ∀ (fuel i : ℕ) (rs rs' : List Run),
      adjustLoop times hd fuel i rs = some rs' →
      rs'.length = rs.length ∧
      ∀ j, (rs.getD j default).startIdx ≤ (rs'.getD j default).startIdx ∧
        (rs'.getD j default).endIdx = (rs.getD j default).endIdx := by
  intro fuel
  induction fuel with
  | zero =>
    intro i rs rs' h
    unfold adjustLoop at h
    rw [if_pos rfl] at h
    injection h with h
    subst h
    exact ⟨rfl, fun j => ⟨le_refl _, rfl⟩⟩
  | succ fuel ih =>
    intro i rs rs' h
    unfold adjustLoop at h
    rw [if_neg (by omega : ¬ fuel + 1 = 0)] at h
    by_cases hi : i < rs.length
    · rw [if_pos hi] at h
      split at h
      · exact Option.noConfusion h
      · rename_i idx hs
        rw [Nat.add_sub_cancel] at h
        obtain ⟨hlen, hmono⟩ := ih (i + 1) _ rs' h
        have hlen2 : (rs.set i ⟨idx, (rs.getD i default).endIdx⟩).length =
            rs.length := List.length_set rs i _
        refine ⟨by rw [hlen, hlen2], fun j => ?_⟩
        have hj := hmono j
        by_cases hij : j = i
        · subst hij
          rw [show ((rs.set j ⟨idx, (rs.getD j default).endIdx⟩).getD j
              default) = ⟨idx, (rs.getD j default).endIdx⟩ from by
            simp [List.getD_eq_getElem?_getD, List.getElem?_set_self, hi]]
            at hj
          have hle : (rs.getD j default).startIdx ≤ idx :=
            settleAdvance_le times _ _ times.length _ 0 idx hs
          exact ⟨le_trans hle hj.1, hj.2⟩
        · rw [show ((rs.set i ⟨idx, (rs.getD i default).endIdx⟩).getD j
              default) = rs.getD j default from by
            simp [List.getD_eq_getElem?_getD,
              List.getElem?_set_ne (Ne.symm hij)]] at hj
          exact hj
    · rw [if_neg hi] at h
      injection h with h
      subst h
      exact ⟨rfl, fun j => ⟨le_refl _, rfl⟩⟩

/-- A session with a 10 W first-run heat step over widely spaced
timestamps: the settle cutoff of 250 seconds pushes the trimmed start
index to 3, past the run's end index 1. -/
def c7Session : DataSession :=
  { refValvePos := 0, refHeatLoad := 0, heatAdjustment := 0
    unixTimeBuff := [0, 100, 200, 300], dsLevelBuff := [90, 90, 90, 90]
    valvePosBuff := [0, 0, 0, 0], elecHeatDesBuff := [10, 10, 10, 10]
    elecHeatActBuff := [10, 10, 10, 10] }

/-- The same heat step with only two samples: the settle loop runs off
the end of unixTimeBuff, Python's IndexError. -/
def c7Short : DataSession :=
  { refValvePos := 0, refHeatLoad := 0, heatAdjustment := 0
    unixTimeBuff := [0, 100], dsLevelBuff := [90, 90]
    valvePosBuff := [0, 0], elecHeatDesBuff := [10, 10]
    elecHeatActBuff := [10, 10] }

/-- Evaluation of the settle loop on c7Session's timestamps with the
250-second cutoff of a 10 W step. -/
theorem c7_settle_eval : settleAdvance [0, 100, 200, 300] 0 250 4 0 0 =
    some 3 := by
  rw [settleAdvance]
  norm_num
  rw [settleAdvance]
  norm_num
  rw [settleAdvance]
  norm_num
  rw [settleAdvance]
  norm_num

/-- Evaluation of the settle loop on c7Short's two timestamps: the
index moves off the buffer. -/
theorem c7_settle_eval_short : settleAdvance [0, 100] 0 250 2 0 0 =
    none := by
  rw [settleAdvance]
  norm_num
  rw [settleAdvance]
  norm_num

/-- Evaluation of settle trimming on c7Session. -/
theorem c7_eval : adjustForSettle c7Session [⟨0, 1⟩] = some [⟨3, 1⟩] := by
  unfold adjustForSettle
  rw [adjustLoop]
  norm_num [getTotalHeatDelta, pyInt, c7Session, c7_settle_eval]
  rw [adjustLoop]
  norm_num

/-- C7 counterexample: trimming the run [0, 1] of c7Session moves its
start index to 3, beyond the original end index 1; and on c7Short the
same trim reads past the end of the session's buffers (IndexError, the
loop on container.py lines 631-633 has no bound). -/
theorem c7_counterexample :
    adjustForSettle c7Session [⟨0, 1⟩] = some [⟨3, 1⟩] ∧ ¬ (3 ≤ 1) ∧
    adjustForSettle c7Short [⟨0, 1⟩] = none := by
  refine ⟨c7_eval, by omega, ?_⟩
  unfold adjustForSettle
  rw [adjustLoop]
  norm_num [getTotalHeatDelta, pyInt, c7Short, c7_settle_eval_short]

/-- C7 amended: a completed settle trim never decreases any run's
start index (and preserves the run count); the trimmed start index can
exceed the run's original end index, and the trim can read past the
buffer end, so those parts of the claim are dropped. -/
theorem c7_amended (s : DataSession) (rs rs' : List Run)
    (h : adjustForSettle s rs = some rs') :
    rs'.length = rs.length ∧
    ∀ j, (rs.getD j default).startIdx ≤ (rs'.getD j default).startIdx := by
  obtain ⟨hlen, hmono⟩ :=
    adjustLoop_mono s.unixTimeBuff (getTotalHeatDelta s) rs.length 0 rs rs' h
  exact ⟨hlen, fun j => (hmono j).1⟩

/-- C7 witness: on the concrete c7Session trim, the run count is
preserved and the start index grows from 0 to 3. -/
theorem c7_amended_witness :
    ([⟨3, 1⟩] : List Run).length = ([⟨0, 1⟩] : List Run).length ∧
    ∀ j, (([⟨0, 1⟩] : List Run).getD j default).startIdx ≤
      (([⟨3, 1⟩] : List Run).getD j default).startIdx :=
  c7_amended c7Session [⟨0, 1⟩] [⟨3, 1⟩] c7_eval

/-- A Q0 session whose first run starts 2 W BELOW the reference
baseline heat load: the signed first-run heat delta is -2. -/
def c3Session : Q0DataSession :=
  { base :=
    { refValvePos := 0, refHeatLoad := 2, heatAdjustment := 0
      unixTimeBuff := [0, 1, 2], dsLevelBuff := [90, 90, 90]
      valvePosBuff := [0, 0, 0], elecHeatDesBuff := [0, 0, 0]
      elecHeatActBuff := [0, 0, 0] }
    gradBuff := [some 0, some 0, some 0]
    dsPressBuff := [none, none, none]
    refGradVal := 16, calibSlope := 1 }

/-- With the negative cutoff -50 the settle loop exits at once. -/
theorem c3_settle_eval : settleAdvance [0, 1, 2] 0 (-50) 3 0 0 = some 0 := by
  rw [settleAdvance]
  norm_num

/-- Evaluation of settle trimming on c3Session: the negative first-run
delta makes the cutoff int(-50) = -50, so nothing is trimmed. -/
theorem c3_eval : adjustForSettleQ0 c3Session [⟨0, 2⟩] = some [⟨0, 2⟩] := by
  have hceil : (⌈(-50 : ℚ)⌉ : ℤ) = -50 := by
    rw [show ((-50) : ℚ) = (((-50) : ℤ) : ℚ) by norm_num]
    exact Int.ceil_intCast _
  unfold adjustForSettleQ0
  rw [adjustLoop]
  norm_num [getTotalHeatDeltaQ0, approxHeatFromGradOpt, approxHeatFromGrad,
    pyInt, c3Session, hceil, c3_settle_eval]
  rw [adjustLoop]
  norm_num

/-- C3 counterexample: the first run of c3Session has code heat delta
-2 (container.py lines 958-961 take no absolute value), while the
claimed magnitude is the absolute difference 2; consequently the code
trims nothing (negative cutoff) where the claim predicts a positive
cutoff of 50. -/
theorem c3_counterexample :
    getTotalHeatDeltaQ0 c3Session [⟨0, 2⟩] 0 0 = -2 ∧
    |c3Session.base.elecHeatDesBuff.getD 0 0 - c3Session.base.refHeatLoad| +
      approxHeatFromGradOpt (c3Session.gradBuff.getD 0 none) = 2 ∧
    (-2 : ℚ) ≠ 2 ∧
    adjustForSettleQ0 c3Session [⟨0, 2⟩] = some [⟨0, 2⟩] := by
  refine ⟨?_, ?_, by norm_num, c3_eval⟩
  · norm_num [getTotalHeatDeltaQ0, approxHeatFromGradOpt, approxHeatFromGrad,
      c3Session]
  · norm_num [approxHeatFromGradOpt, approxHeatFromGrad, c3Session, absIte]

/-- The settle loop started at its own index with duration 0 (the way
adjustForSettle starts it). -/
theorem settleAdvance_sound_zero (times : List ℚ) (cutoff : ℤ)
    (fuel idx idx' : ℕ)
    (h : settleAdvance times (times.getD idx 0) cutoff fuel idx 0 =
      some idx') :
    idx ≤ idx' ∧
    ¬ times.getD idx' 0 - times.getD idx 0 < (cutoff : ℚ) ∧
    ∀ j, idx ≤ j → j < idx' →
      times.getD j 0 - times.getD idx 0 < (cutoff : ℚ) := by
  refine settleAdvance_sound times (times.getD idx 0) cutoff fuel idx idx' ?_
  rw [sub_self]
  exact h

/-- C3 amended: the first-run heat-step value is the SIGNED difference
between the heater setpoint at the run's start and the reference
baseline, plus the gradient-approximated heat there (no absolute
value); later runs take the absolute combined difference against the
previous run's start index; the cutoff is Python int(), which is the
floor for the non-negative deltas of the later runs; the trimmed start
index is the first index from the run's start whose elapsed wall time
reaches the cutoff; and trimming never changes any run's end index. -/
theorem c3_amended (q : Q0DataSession) (rs : List Run) (startIdx i : ℕ) :
    (i = 0 → getTotalHeatDeltaQ0 q rs startIdx i =
      (q.base.elecHeatDesBuff.getD startIdx 0 - q.base.refHeatLoad) +
        approxHeatFromGradOpt (q.gradBuff.getD startIdx none)) ∧
    (i ≠ 0 → getTotalHeatDeltaQ0 q rs startIdx i =
      |(q.base.elecHeatDesBuff.getD startIdx 0 -
        q.base.elecHeatDesBuff.getD (rs.getD (i - 1) default).startIdx 0) +
       (approxHeatFromGradOpt (q.gradBuff.getD startIdx none) -
        approxHeatFromGradOpt
          (q.gradBuff.getD (rs.getD (i - 1) default).startIdx none))|) ∧
    (∀ x : ℚ, 0 ≤ x → pyInt x = Int.floor x) ∧
    (∀ idx', settleAdvance q.base.unixTimeBuff
        (q.base.unixTimeBuff.getD startIdx 0)
        (pyInt (getTotalHeatDeltaQ0 q rs startIdx i * 25))
        q.base.unixTimeBuff.length startIdx 0 = some idx' →
      startIdx ≤ idx' ∧
      ¬ q.base.unixTimeBuff.getD idx' 0 -
          q.base.unixTimeBuff.getD startIdx 0 <
          ((pyInt (getTotalHeatDeltaQ0 q rs startIdx i * 25) : ℤ) : ℚ) ∧
      ∀ j, startIdx ≤ j → j < idx' →
        q.base.unixTimeBuff.getD j 0 - q.base.unixTimeBuff.getD startIdx 0 <
          ((pyInt (getTotalHeatDeltaQ0 q rs startIdx i * 25) : ℤ) : ℚ)) ∧
    (∀ rs', adjustForSettleQ0 q rs = some rs' →
      ∀ j, (rs'.getD j default).endIdx = (rs.getD j default).endIdx) := by
  refine ⟨fun h0 => by simp [getTotalHeatDeltaQ0, h0], fun h0 => ?_,
    fun x hx => by simp [pyInt, hx], ?_, ?_⟩
  · simp only [getTotalHeatDeltaQ0, if_neg h0]
  · intro idx' h
    exact settleAdvance_sound_zero q.base.unixTimeBuff _ _ startIdx idx' h
  · intro rs' h j
    exact ((adjustLoop_mono q.base.unixTimeBuff (getTotalHeatDeltaQ0 q)
      rs.length 0 rs rs' h).2 j).2

/-- C3 witness: the amended statements instantiated on c3Session: the
signed first-run delta formula, the floor form of the cutoff at a
non-negative value, and end-index preservation across its trim. -/
theorem c3_amended_witness :
    getTotalHeatDeltaQ0 c3Session [⟨0, 2⟩] 0 0 =
      (c3Session.base.elecHeatDesBuff.getD 0 0 -
        c3Session.base.refHeatLoad) +
        approxHeatFromGradOpt (c3Session.gradBuff.getD 0 none) ∧
    pyInt 3 = Int.floor (3 : ℚ) ∧
    ∀ j, (([⟨0, 2⟩] : List Run).getD j default).endIdx =
      (([⟨0, 2⟩] : List Run).getD j default).endIdx := by
  have h := c3_amended c3Session [⟨0, 2⟩] 0 0
  exact ⟨h.1 rfl, h.2.2.1 3 (by norm_num),
    fun j => h.2.2.2.2 [⟨0, 2⟩] c3_eval j⟩

/-- C9 counterexample: at RF heat load 1 the uncorrected Q0 formula is
NOT strictly increasing over all gradients: -2 < -1 yet the squared
gradient makes Q0 larger at -2. -/
theorem c9_counterexample :
    (-2 : ℚ) < -1 ∧ uncorrectedQ0 (-1) 1 < uncorrectedQ0 (-2) 1 := by
  constructor
  · norm_num
  · norm_num [uncorrectedQ0]

/-- C9 amended: for a positive RF heat load and non-negative
gradients, the uncorrected Q0 is strictly increasing in the
gradient. -/
theorem c9_amended (g1 g2 rf : ℚ) (hrf : 0 < rf) (hg1 : 0 ≤ g1)
    (hlt : g1 < g2) : uncorrectedQ0 g1 rf < uncorrectedQ0 g2 rf := by
  unfold uncorrectedQ0
  have hden : (0 : ℚ) < 9393 / 10 * rf := by positivity
  have h2 : g1 * 1000000 < g2 * 1000000 :=
    mul_lt_mul_of_pos_right hlt (by norm_num)
  have h3 : (g1 * 1000000) ^ 2 < (g2 * 1000000) ^ 2 :=
    pow_lt_pow_left₀ h2 (by positivity) (by norm_num)
  exact (div_lt_div_right hden).mpr h3

/-- C9 witness: gradients 0 < 1 at RF heat load 1. -/
theorem c9_amended_witness :
    (0 : ℚ) < 1 ∧ (0 : ℚ) ≤ 0 ∧ (0 : ℚ) < 1 ∧
    uncorrectedQ0 0 1 < uncorrectedQ0 1 1 :=
  ⟨by norm_num, by norm_num, by norm_num,
   c9_amended 0 1 1 (by norm_num) (by norm_num) (by norm_num)⟩

/-- A Q0 session with an all-zero gradient buffer of length 4 whose
segmentation emits the single non-heater run [0, 2]. -/
def c6Session : Q0DataSession :=
  { base :=
    { refValvePos := 0, refHeatLoad := 5, heatAdjustment := 0
      unixTimeBuff := [0, 10, 20, 30], dsLevelBuff := [90, 90, 90, 90]
      valvePosBuff := [0, 0, 0, 0], elecHeatDesBuff := [5, 5, 5, 5]
      elecHeatActBuff := [5, 5, 5, 5] }
    gradBuff := [some 0, some 0, some 0, some 0]
    dsPressBuff := [none, none, none, none]
    refGradVal := 16, calibSlope := 1 }

/-- C6 counterexample: segmentation of c6Session emits the non-heater
run [0, 2]; the reported invalid-gradient count is gradBuff.count(0)
over the WHOLE session buffer, 4, while only the 2 samples the q0 loop
iterates (range(0, 2)) are substituted: 4 is neither the substituted
count nor the run's length. -/
theorem c6_counterexample :
    populateRunsQ0 c8Tol c6Session = [⟨0, 2⟩] ∧
    elecHeatLoadDes c6Session ⟨0, 2, 0⟩ = 0 ∧
    numInvalidGrads c6Session = 4 ∧
    substitutedCount c6Session ⟨0, 2, 0⟩ = 2 ∧ (4 : ℕ) ≠ 2 := by
  refine ⟨?_, ?_, ?_, ?_, by omega⟩
  · unfold populateRunsQ0
    rw [show List.range c6Session.base.elecHeatDesBuff.length = [0, 1, 2, 3]
      from rfl]
    norm_num [checkAndFlushRun, isEndOfQ0Run, isEndOfCalibRun, gradChangedQ0,
      c6Session, c8Tol, absIte]
  · norm_num [elecHeatLoadDes, c6Session]
  · norm_num [numInvalidGrads, c6Session]
  · unfold substitutedCount
    rw [show List.range' (FittedRun.startIdx ⟨0, 2, 0⟩)
      (FittedRun.endIdx ⟨0, 2, 0⟩ - FittedRun.startIdx ⟨0, 2, 0⟩) = [0, 1]
      from rfl]
    norm_num [c6Session]

/-- C6 amended: a per-sample Q0 evaluation whose gradient reading is
zero or missing substitutes the session's reference gradient, but the
reported invalid-gradient count is the number of zero entries in the
session's ENTIRE gradient buffer (missing entries not counted), not the
substituted count within the run; in particular, when the whole session
gradient buffer is zeros the count equals the buffer's length. -/
theorem c6_amended (q : Q0DataSession) (idx : ℕ)
    (hz : q.gradBuff.getD idx none = none ∨
      q.gradBuff.getD idx none = some 0) :
    substGrad q idx = q.refGradVal ∧
    ((∀ x ∈ q.gradBuff, x = some 0) →
      numInvalidGrads q = q.gradBuff.length) := by
  constructor
  · rcases hz with h | h
    · unfold substGrad
      rw [h]
    · unfold substGrad
      rw [h]
      simp
  · intro hall
    unfold numInvalidGrads
    rw [List.filter_eq_self.mpr]
    intro a ha
    rw [hall a ha]
    simp

/-- C6 witness: sample 0 of c6Session is substituted with the
reference gradient, and the all-zero buffer makes the reported count
equal to the whole buffer's length. -/
theorem c6_amended_witness :
    substGrad c6Session 0 = c6Session.refGradVal ∧
    numInvalidGrads c6Session = c6Session.gradBuff.length := by
  have h := c6_amended c6Session 0 (Or.inr rfl)
  exact ⟨h.1, h.2 (by simp [c6Session])⟩

/-- Swapping start and end times leaves the XOR-folded session hash
unchanged (container.py lines 473-477): XOR is commutative. -/
theorem c4_hash_collision :
    sessionHash 2 1 1 12 2 = sessionHash 1 2 1 12 2 := by
  unfold sessionHash
  rw [Nat.xor_comm 2 1]

/-- C4: the cache keyed by the XOR hash returns the FIRST session for a
second request whose identity differs (start and end times swapped):
the same cached object is returned (its startTime is still 1, not the
requested 2) and no new session is constructed, violating the
distinct-identities-give-distinct-sessions invariant.  The spec itself
flags XOR folding as a latent correctness bug. -/
theorem c4_code_bug :
    (addDataSession (addDataSession ⟨12, 2, []⟩ 1 2 1 40 0).2 2 1 1 40 0).1 =
      (addDataSession ⟨12, 2, []⟩ 1 2 1 40 0).1 ∧
    (addDataSession (addDataSession ⟨12, 2, []⟩ 1 2 1 40 0).2
      2 1 1 40 0).1.startTime = 1 ∧
    (addDataSession (addDataSession ⟨12, 2, []⟩ 1 2 1 40 0).2
      2 1 1 40 0).2.dataSessions.length = 1 := by
  have hfirst : addDataSession ⟨12, 2, []⟩ 1 2 1 40 0 =
      (⟨1, 2, 1, 40, 0⟩,
       ⟨12, 2, [(sessionHash 1 2 1 12 2, ⟨1, 2, 1, 40, 0⟩)]⟩) := rfl
  have hsecond : addDataSession
      (⟨12, 2, [(sessionHash 1 2 1 12 2, ⟨1, 2, 1, 40, 0⟩)]⟩ :
        ContainerState) 2 1 1 40 0 =
      (⟨1, 2, 1, 40, 0⟩,
       ⟨12, 2, [(sessionHash 1 2 1 12 2, ⟨1, 2, 1, 40, 0⟩)]⟩) := by
    unfold addDataSession
    dsimp only
    rw [c4_hash_collision]
    simp [List.lookup]
  rw [hfirst, hsecond]
  exact ⟨rfl, rfl, rfl⟩

/-- A non-heater Q0 run whose projected total heat load equals its
electric heat load, so the RF heat load is exactly 0 (and, with
slope -1, exactly -1). -/
def c5Session : Q0DataSession :=
  { base :=
    { refValvePos := 0, refHeatLoad := 5, heatAdjustment := 0
      unixTimeBuff := [0, 10, 20], dsLevelBuff := [90, 90, 90]
      valvePosBuff := [0, 0, 0], elecHeatDesBuff := [5, 5, 5]
      elecHeatActBuff := [0, 0, 0] }
    gradBuff := [some 1, some 1, some 1]
    dsPressBuff := [none, none, none]
    refGradVal := 16, calibSlope := 1 }

/-- C5: for the non-heater run of c5Session with RF heat load 0, the
per-sample Q0 computation divides by zero (Except.error models the
uncaught ZeroDivisionError of container.py line 1168); with RF heat
load -1 it returns a negative numeric Q0 instead of reporting the value
as undefined.  The claim states Q0 should be reported absent without
fault; the code has no rfHeatLoad <= 0 guard at all. -/
theorem c5_code_bug :
    elecHeatLoadDes c5Session ⟨0, 2, 0⟩ = 0 ∧
    rfHeatLoad c5Session [⟨0, 2, 0⟩] ⟨0, 2, 0⟩ = 0 ∧
    q0RunResult (fun _ => 0) c5Session [⟨0, 2, 0⟩] ⟨0, 2, 0⟩ =
      Except.error () ∧
    rfHeatLoad c5Session [⟨0, 2, -1⟩] ⟨0, 2, -1⟩ = -1 ∧
    q0RunResult (fun _ => 0) c5Session [⟨0, 2, -1⟩] ⟨0, 2, -1⟩ =
      Except.ok (some (-(10 ^ 13 / 9393))) ∧
    (-(10 ^ 13 / 9393) : ℚ) < 0 := by
  have hdes : elecHeatLoadDes c5Session ⟨0, 2, 0⟩ = 0 := by
    norm_num [elecHeatLoadDes, c5Session]
  have hdes2 : elecHeatLoadDes c5Session ⟨0, 2, -1⟩ = 0 := by
    norm_num [elecHeatLoadDes, c5Session]
  have hrf : rfHeatLoad c5Session [⟨0, 2, 0⟩] ⟨0, 2, 0⟩ = 0 := by
    unfold rfHeatLoad totalHeatLoad aveHeatAdjustment heatAdjustmentRun
      elecHeatLoadRun elecHeatLoadDes
    norm_num [c5Session]
  have hrf2 : rfHeatLoad c5Session [⟨0, 2, -1⟩] ⟨0, 2, -1⟩ = -1 := by
    unfold rfHeatLoad totalHeatLoad aveHeatAdjustment heatAdjustmentRun
      elecHeatLoadRun elecHeatLoadDes
    norm_num [c5Session]
  refine ⟨hdes, hrf, ?_, hrf2, ?_, by norm_num⟩
  · unfold q0RunResult
    rw [if_neg (by rw [hdes]; norm_num)]
    rw [show List.range' (FittedRun.startIdx ⟨0, 2, 0⟩)
      (FittedRun.endIdx ⟨0, 2, 0⟩ - FittedRun.startIdx ⟨0, 2, 0⟩) = [0, 1]
      from rfl]
    rw [hrf]
    norm_num [calcQ0, substGrad, c5Session, List.mapM.loop]
  · unfold q0RunResult
    rw [if_neg (by rw [hdes2]; norm_num)]
    rw [show List.range' (FittedRun.startIdx ⟨0, 2, -1⟩)
      (FittedRun.endIdx ⟨0, 2, -1⟩ - FittedRun.startIdx ⟨0, 2, -1⟩) = [0, 1]
      from rfl]
    rw [hrf2]
    norm_num [calcQ0, substGrad, uncorrectedQ0, listMean, c5Session,
      List.mapM.loop]

end Q0Meas
